import Mathlib

/-!
Verification development for the procedural grass subsystem of the
`r3f-theatrejs-starter` repository
(source: `src/components/3D/grass-component/grass.tsx`).

JavaScript double arithmetic is modelled over the real numbers;
`Math.sqrt`, `Math.sin`, `Math.cos`, `Math.exp` and `Math.pow` become
`Real.sqrt`, `Real.sin`, `Real.cos`, `Real.exp` and `Real.rpow`.
A terrain height function `(x, z) => [height, nx, ny, nz]` becomes a
function into a 4-tuple of reals, following the array layout of the
source.
-/

noncomputable section

/-- A height sample, the tuple `[height, nx, ny, nz]` returned by the
terrain height functions of `grass.tsx`. -/
abbrev HeightSample : Type := ℝ × ℝ × ℝ × ℝ

/-- A terrain height function `(x, z) => [height, nx, ny, nz]`. -/
abbrev HeightField : Type := ℝ → ℝ → HeightSample

/-- `createFlatTerrain` (grass.tsx line 154): the returned closure ignores
its arguments and yields `[0, 0, 1, 0]`. -/
def createFlatTerrain : HeightField := fun _ _ => (0, 0, 1, 0)

/-- `HillConfig` (grass.tsx lines 89-112) with every field required, as
after merging with `DEFAULT_HILL`.  The `asymmetry` pair is split into
its two components. -/
structure HillConfig where
  centerX : ℝ
  centerZ : ℝ
  radius : ℝ
  height : ℝ
  roundness : ℝ
  plateau : ℝ
  skirt : ℝ
  asymmetryX : ℝ
  asymmetryZ : ℝ
  rotation : ℝ
  ridge : ℝ
  ridgeDirection : ℝ

/-- `DEFAULT_HILL` (grass.tsx lines 133-145). -/
def DEFAULT_HILL : HillConfig :=
  { centerX := 0, centerZ := 0, radius := 10, height := 3, roundness := 2,
    plateau := 0, skirt := 0, asymmetryX := 1, asymmetryZ := 1,
    rotation := 0, ridge := 0, ridgeDirection := 0 }

/-- The rotated, anisotropically scaled local x offset `adx`
(grass.tsx lines 172-181): translate to the hill center, rotate by
`-rotation`, divide by `asymmetry[0]`. -/
def hillADX (c : HillConfig) (x z : ℝ) : ℝ :=
  ((x - c.centerX) * Real.cos (-c.rotation) -
    (z - c.centerZ) * Real.sin (-c.rotation)) / c.asymmetryX

/-- The rotated, anisotropically scaled local z offset `adz`
(grass.tsx lines 172-181). -/
def hillADZ (c : HillConfig) (x z : ℝ) : ℝ :=
  ((x - c.centerX) * Real.sin (-c.rotation) +
    (z - c.centerZ) * Real.cos (-c.rotation)) / c.asymmetryZ

/-- `dist = Math.sqrt(adx*adx + adz*adz)` (grass.tsx line 183). -/
def hillDist (c : HillConfig) (x z : ℝ) : ℝ :=
  Real.sqrt (hillADX c x z ^ 2 + hillADZ c x z ^ 2)

/-- The plateau remapping of the normalized distance `t`
(grass.tsx lines 199-204): under the plateau threshold `t` is forced to
`0`, above it `t` is rescaled into `[0,1]`. -/
def plateauRemap (c : HillConfig) (t : ℝ) : ℝ :=
  if 0 < c.plateau ∧ t < c.plateau then 0
  else if 0 < c.plateau then (t - c.plateau) / (1 - c.plateau)
  else t

/-- The ridge factor (grass.tsx lines 206-211), written in hill-local
scaled coordinates `(adx, adz)`. -/
def ridgeFactorAt (c : HillConfig) (adx adz : ℝ) : ℝ :=
  if 0 < c.ridge then
    1 - c.ridge *
      (1 - Real.exp (-|adx * Real.cos (-c.ridgeDirection) -
        adz * Real.sin (-c.ridgeDirection)| * 2))
  else 1

/-- The inner closure `getHeight` of `createHillTerrain`
(grass.tsx lines 219-237): same shape pipeline, returning `0` from
`radius` outwards, used for the central-difference normal. -/
def hillGetHeight (c : HillConfig) (px pz : ℝ) : ℝ :=
  if c.radius ≤ Real.sqrt (hillADX c px pz ^ 2 + hillADZ c px pz ^ 2) then 0
  else
    c.height *
      ((1 - plateauRemap c
          (Real.sqrt (hillADX c px pz ^ 2 + hillADZ c px pz ^ 2) / c.radius)) ^
          c.roundness *
        ridgeFactorAt c (hillADX c px pz) (hillADZ c px pz))

/-- The interior height `y = height * Math.pow(1-t, roundness) * ridgeFactor`
(grass.tsx lines 196-215). -/
def hillInteriorY (c : HillConfig) (x z : ℝ) : ℝ :=
  c.height *
    ((1 - plateauRemap c (hillDist c x z / c.radius)) ^ c.roundness *
      ridgeFactorAt c (hillADX c x z) (hillADZ c x z))

/-- `dhdx = (getHeight(x+eps, z) - getHeight(x-eps, z)) / (2*eps)` with
`eps = 0.01` (grass.tsx lines 218-239). -/
def hillDhdx (c : HillConfig) (x z : ℝ) : ℝ :=
  (hillGetHeight c (x + 0.01) z - hillGetHeight c (x - 0.01) z) / (2 * 0.01)

/-- `dhdz = (getHeight(x, z+eps) - getHeight(x, z-eps)) / (2*eps)`
(grass.tsx line 240). -/
def hillDhdz (c : HillConfig) (x z : ℝ) : ℝ :=
  (hillGetHeight c x (z + 0.01) - hillGetHeight c x (z - 0.01)) / (2 * 0.01)

/-- `len = Math.sqrt(dhdx*dhdx + 1 + dhdz*dhdz)` (grass.tsx line 242). -/
def hillLen (c : HillConfig) (x z : ℝ) : ℝ :=
  Real.sqrt (hillDhdx c x z ^ 2 + 1 + hillDhdz c x z ^ 2)

/-- `createHillTerrain` (grass.tsx lines 161-245): flat `[0,0,1,0]` from
`radius + skirt` outwards (line 187) and in the skirt band from `radius`
outwards (line 192); otherwise the interior height together with the
normalized central-difference normal (line 243). -/
def createHillTerrain (c : HillConfig) : HeightField := fun x z =>
  if c.radius + c.skirt ≤ hillDist c x z then (0, 0, 1, 0)
  else if c.radius ≤ hillDist c x z then (0, 0, 1, 0)
  else
    (hillInteriorY c x z,
      -hillDhdx c x z / hillLen c x z,
      1 / hillLen c x z,
      -hillDhdz c x z / hillLen c x z)

/-- The accumulation loop of `combineTerrains` (grass.tsx lines 253-263):
`totalY`, `totalNx`, `totalNz` are summed over the children; the `ny`
component of each child is skipped by the destructuring `[y, nx, , nz]`. -/
def combineTotals (ts : List HeightField) (x z : ℝ) : ℝ × ℝ × ℝ :=
  ts.foldl
    (fun acc t =>
      (acc.1 + (t x z).1, acc.2.1 + (t x z).2.1, acc.2.2 + (t x z).2.2.2))
    (0, 0, 0)

/-- `combineTerrains` (grass.tsx lines 250-268): the summed height and the
renormalized vector `(totalNx, 1, totalNz)`. -/
def combineTerrains (ts : List HeightField) : HeightField := fun x z =>
  ((combineTotals ts x z).1,
    (combineTotals ts x z).2.1 /
      Real.sqrt ((combineTotals ts x z).2.1 ^ 2 + 1 +
        (combineTotals ts x z).2.2 ^ 2),
    1 /
      Real.sqrt ((combineTotals ts x z).2.1 ^ 2 + 1 +
        (combineTotals ts x z).2.2 ^ 2),
    (combineTotals ts x z).2.2 /
      Real.sqrt ((combineTotals ts x z).2.1 ^ 2 + 1 +
        (combineTotals ts x z).2.2 ^ 2))

/-- Squared euclidean norm of a 3-vector, used to state the unit-normal
invariant. -/
def normSq3 (v : ℝ × ℝ × ℝ) : ℝ := v.1 ^ 2 + v.2.1 ^ 2 + v.2.2 ^ 2

/-- The height component of `createHillTerrain` as a function of the
hill-local scaled distance alone (valid when `ridge = 0`). -/
def hillHeightD (c : HillConfig) (d : ℝ) : ℝ :=
  if c.radius + c.skirt ≤ d then 0
  else if c.radius ≤ d then 0
  else c.height * (1 - plateauRemap c (d / c.radius)) ^ c.roundness

/-- The hill of the spec scenario: `Hill(radius=5, height=3, roundness=2)`
with all remaining fields at their `DEFAULT_HILL` values. -/
def hillC3 : HillConfig :=
  { DEFAULT_HILL with radius := 5, height := 3, roundness := 2 }

/-- A height field with the constant unit normal `(1, 0, 0)`, used to
separate `combineTerrains` of a single child from that child. -/
def gUnitX : HeightField := fun _ _ => (0, 1, 0, 0)

/-- Squared length of a 3-vector, `THREE.Vector3.lengthSq`. -/
def threeLengthSq (v : ℝ × ℝ × ℝ) : ℝ := v.1 ^ 2 + v.2.1 ^ 2 + v.2.2 ^ 2

/-- Length of a 3-vector, `THREE.Vector3.length`. -/
def threeLength (v : ℝ × ℝ × ℝ) : ℝ := Real.sqrt (threeLengthSq v)

/-- `THREE.Vector3.normalize`: `divideScalar(this.length() || 1)`; the
JavaScript `|| 1` guard turns a zero length into a division by `1`, so the
zero vector is returned unchanged. -/
def threeNormalize (v : ℝ × ℝ × ℝ) : ℝ × ℝ × ℝ :=
  (v.1 / (if threeLength v = 0 then 1 else threeLength v),
    v.2.1 / (if threeLength v = 0 then 1 else threeLength v),
    v.2.2 / (if threeLength v = 0 then 1 else threeLength v))

/-- The normal used to align a blade (grass.tsx lines 472-473):
`normal.set(nx, ny, nz).normalize(); if (normal.lengthSq() < 0.001)
normal.set(0, 1, 0)`. -/
def bladeNormal (n : ℝ × ℝ × ℝ) : ℝ × ℝ × ℝ :=
  if threeLengthSq (threeNormalize n) < 0.001 then (0, 1, 0)
  else threeNormalize n

/-- `Number.EPSILON` of JavaScript, used by
`THREE.Quaternion.setFromUnitVectors`. -/
def jsEpsilon : ℝ := 1 / 2 ^ 52

/-- `THREE.Quaternion.normalize`: the zero quaternion becomes the identity
`(0,0,0,1)`, otherwise each component is divided by the length.
Quaternions are stored `(x, y, z, w)`. -/
def quatNormalize (q : ℝ × ℝ × ℝ × ℝ) : ℝ × ℝ × ℝ × ℝ :=
  if Real.sqrt (q.1 ^ 2 + q.2.1 ^ 2 + q.2.2.1 ^ 2 + q.2.2.2 ^ 2) = 0 then
    (0, 0, 0, 1)
  else
    (q.1 / Real.sqrt (q.1 ^ 2 + q.2.1 ^ 2 + q.2.2.1 ^ 2 + q.2.2.2 ^ 2),
      q.2.1 / Real.sqrt (q.1 ^ 2 + q.2.1 ^ 2 + q.2.2.1 ^ 2 + q.2.2.2 ^ 2),
      q.2.2.1 / Real.sqrt (q.1 ^ 2 + q.2.1 ^ 2 + q.2.2.1 ^ 2 + q.2.2.2 ^ 2),
      q.2.2.2 / Real.sqrt (q.1 ^ 2 + q.2.1 ^ 2 + q.2.2.1 ^ 2 + q.2.2.2 ^ 2))

/-- `THREE.Quaternion.setFromUnitVectors vFrom vTo`. -/
def setFromUnitVectors (vFrom vTo : ℝ × ℝ × ℝ) : ℝ × ℝ × ℝ × ℝ :=
  if vFrom.1 * vTo.1 + vFrom.2.1 * vTo.2.1 + vFrom.2.2 * vTo.2.2 + 1 <
      jsEpsilon then
    if |vFrom.2.2| < |vFrom.1| then
      quatNormalize (-vFrom.2.1, vFrom.1, 0, 0)
    else
      quatNormalize (0, -vFrom.2.2, vFrom.2.1, 0)
  else
    quatNormalize
      (vFrom.2.1 * vTo.2.2 - vFrom.2.2 * vTo.2.1,
        vFrom.2.2 * vTo.1 - vFrom.1 * vTo.2.2,
        vFrom.1 * vTo.2.1 - vFrom.2.1 * vTo.1,
        vFrom.1 * vTo.1 + vFrom.2.1 * vTo.2.1 + vFrom.2.2 * vTo.2.2 + 1)

/-- `THREE.Quaternion.setFromAxisAngle axis angle` (axis assumed unit). -/
def setFromAxisAngle (axis : ℝ × ℝ × ℝ) (angle : ℝ) : ℝ × ℝ × ℝ × ℝ :=
  (axis.1 * Real.sin (angle / 2), axis.2.1 * Real.sin (angle / 2),
    axis.2.2 * Real.sin (angle / 2), Real.cos (angle / 2))

/-- `THREE.Quaternion.multiply`: Hamilton product `a * b` with the
component formulas of `multiplyQuaternions`. -/
def quatMultiply (a b : ℝ × ℝ × ℝ × ℝ) : ℝ × ℝ × ℝ × ℝ :=
  (a.1 * b.2.2.2 + a.2.2.2 * b.1 + a.2.1 * b.2.2.1 - a.2.2.1 * b.2.1,
    a.2.1 * b.2.2.2 + a.2.2.2 * b.2.1 + a.2.2.1 * b.1 - a.1 * b.2.2.1,
    a.2.2.1 * b.2.2.2 + a.2.2.2 * b.2.2.1 + a.1 * b.2.1 - a.2.1 * b.1,
    a.2.2.2 * b.2.2.2 - a.1 * b.1 - a.2.1 * b.2.1 - a.2.2.1 * b.2.2.1)

/-- One blade transform as assembled by `matrix.compose(position,
quaternion, scale)` (grass.tsx line 481): `compose` packs exactly the
position, the orientation quaternion and the scale triple, so the
transform is kept in that structured form. -/
structure BladeTransform where
  pos : ℝ × ℝ × ℝ
  quat : ℝ × ℝ × ℝ × ℝ
  scale : ℝ × ℝ × ℝ

/-- The body of the instance loop (grass.tsx lines 461-482) for one blade,
given the four `Math.random()` draws `r1..r4` it consumes, in source
order: `x`, `z`, `scaleY`, `rotationY`. -/
def makeBlade (sizeX sizeZ hMin hMax : ℝ) (hf : HeightField)
    (r1 r2 r3 r4 : ℝ) : BladeTransform :=
  { pos := ((r1 - 0.5) * sizeX,
      (hf ((r1 - 0.5) * sizeX) ((r2 - 0.5) * sizeZ)).1,
      (r2 - 0.5) * sizeZ),
    quat := quatMultiply
      (setFromUnitVectors (0, 1, 0)
        (bladeNormal
          ((hf ((r1 - 0.5) * sizeX) ((r2 - 0.5) * sizeZ)).2.1,
            (hf ((r1 - 0.5) * sizeX) ((r2 - 0.5) * sizeZ)).2.2.1,
            (hf ((r1 - 0.5) * sizeX) ((r2 - 0.5) * sizeZ)).2.2.2)))
      (setFromAxisAngle
        (bladeNormal
          ((hf ((r1 - 0.5) * sizeX) ((r2 - 0.5) * sizeZ)).2.1,
            (hf ((r1 - 0.5) * sizeX) ((r2 - 0.5) * sizeZ)).2.2.1,
            (hf ((r1 - 0.5) * sizeX) ((r2 - 0.5) * sizeZ)).2.2.2))
        (r4 * (Real.pi * 2))),
    scale := (1, hMin + r3 * (hMax - hMin), 1) }

/-- The `instanceMatrices` buffer (grass.tsx lines 452-486): one transform
per blade index `i < bladeCount`; the pseudo-random stream of
`Math.random()` is modelled by the function `rand`, blade `i` consuming
draws `4*i .. 4*i+3`. -/
def instanceMatrices (rand : ℕ → ℝ) (bladeCount : ℕ)
    (sizeX sizeZ hMin hMax : ℝ) (hf : HeightField) : List BladeTransform :=
  (List.range bladeCount).map fun i =>
    makeBlade sizeX sizeZ hMin hMax hf
      (rand (4 * i)) (rand (4 * i + 1)) (rand (4 * i + 2)) (rand (4 * i + 3))

/-- Vertex positions of `THREE.PlaneGeometry(w, h, gx, gy)`: row-major
grid of `(gx+1) * (gy+1)` vertices at
`(ix * (w/gx) - w/2, -(iy * (h/gy) - h/2), 0)`. -/
def planePositions (w h : ℝ) (gx gy : ℕ) : List (ℝ × ℝ × ℝ) :=
  (List.range (gy + 1)).flatMap fun iy =>
    (List.range (gx + 1)).map fun ix =>
      ((ix : ℝ) * (w / gx) - w / 2, -((iy : ℝ) * (h / gy) - h / 2), 0)

/-- Triangle index buffer of `THREE.PlaneGeometry(w, h, gx, gy)`: the
faces `(a, b, d)` and `(b, c, d)` per grid cell. -/
def planeIndices (gx gy : ℕ) : List (ℕ × ℕ × ℕ) :=
  (List.range gy).flatMap fun iy =>
    (List.range gx).flatMap fun ix =>
      [(ix + (gx + 1) * iy, ix + (gx + 1) * (iy + 1), ix + 1 + (gx + 1) * iy),
        (ix + (gx + 1) * (iy + 1), ix + 1 + (gx + 1) * (iy + 1),
          ix + 1 + (gx + 1) * iy)]

/-- Componentwise difference of 3-vectors (`THREE.Vector3.subVectors`). -/
def vsub (a b : ℝ × ℝ × ℝ) : ℝ × ℝ × ℝ :=
  (a.1 - b.1, a.2.1 - b.2.1, a.2.2 - b.2.2)

/-- Componentwise sum of 3-vectors (`THREE.Vector3.add`). -/
def vadd (a b : ℝ × ℝ × ℝ) : ℝ × ℝ × ℝ :=
  (a.1 + b.1, a.2.1 + b.2.1, a.2.2 + b.2.2)

/-- Cross product of 3-vectors (`THREE.Vector3.cross`). -/
def vcross (a b : ℝ × ℝ × ℝ) : ℝ × ℝ × ℝ :=
  (a.2.1 * b.2.2 - a.2.2 * b.2.1, a.2.2 * b.1 - a.1 * b.2.2,
    a.1 * b.2.1 - a.2.1 * b.1)

/-- Add the vector `n` into slot `i` of the normal accumulator. -/
def addNormal (acc : ℕ → ℝ × ℝ × ℝ) (i : ℕ) (n : ℝ × ℝ × ℝ) :
    ℕ → ℝ × ℝ × ℝ :=
  fun j => if j = i then vadd (acc j) n else acc j

/-- One step of `THREE.BufferGeometry.computeVertexNormals` for the
indexed face `(a, b, c)`: the face normal `cross(pC - pB, pA - pB)` is
added into the three incident vertex slots. -/
def faceAccum (pos : List (ℝ × ℝ × ℝ)) (acc : ℕ → ℝ × ℝ × ℝ)
    (t : ℕ × ℕ × ℕ) : ℕ → ℝ × ℝ × ℝ :=
  addNormal
    (addNormal
      (addNormal acc t.1
        (vcross
          (vsub (pos.getD t.2.2 (0, 0, 0)) (pos.getD t.2.1 (0, 0, 0)))
          (vsub (pos.getD t.1 (0, 0, 0)) (pos.getD t.2.1 (0, 0, 0)))))
      t.2.1
      (vcross
        (vsub (pos.getD t.2.2 (0, 0, 0)) (pos.getD t.2.1 (0, 0, 0)))
        (vsub (pos.getD t.1 (0, 0, 0)) (pos.getD t.2.1 (0, 0, 0)))))
    t.2.2
    (vcross
      (vsub (pos.getD t.2.2 (0, 0, 0)) (pos.getD t.2.1 (0, 0, 0)))
      (vsub (pos.getD t.1 (0, 0, 0)) (pos.getD t.2.1 (0, 0, 0))))

/-- `THREE.BufferGeometry.computeVertexNormals` for an indexed geometry:
accumulate face normals per vertex, then normalize each slot.  The
normals are a function of the vertex positions and the index buffer
alone. -/
def computeVertexNormals (pos : List (ℝ × ℝ × ℝ))
    (idx : List (ℕ × ℕ × ℕ)) : List (ℝ × ℝ × ℝ) :=
  (List.range pos.length).map fun i =>
    threeNormalize (idx.foldl (faceAccum pos) (fun _ => (0, 0, 0)) i)

/-- The `terrainGeometry` memo (grass.tsx lines 435-449): start from
`PlaneGeometry(size[0], size[1], terrainSegments, terrainSegments)`, set
each vertex's third coordinate to `heightFunction(x, z)[0]` where `x, z`
are the vertex's first two coordinates, then `computeVertexNormals()`.
Returns the vertex positions and the recomputed vertex normals. -/
def terrainGeometry (w h : ℝ) (segs : ℕ) (f : HeightField) :
    List (ℝ × ℝ × ℝ) × List (ℝ × ℝ × ℝ) :=
  ((planePositions w h segs segs).map
      (fun v => (v.1, v.2.1, (f v.1 v.2.1).1)),
    computeVertexNormals
      ((planePositions w h segs segs).map
        (fun v => (v.1, v.2.1, (f v.1 v.2.1).1)))
      (planeIndices segs segs))

/-- The wind vertex displacement of the grass vertex shader
(grass.tsx lines 347-371), as the new local position of a blade vertex.
The GLSL simplex noise `snoise` is kept as a function parameter: every
statement proved below holds for an arbitrary noise function. -/
def windDisplacedPos (snoise : ℝ → ℝ → ℝ → ℝ)
    (uTime uWindStrength uWindSpeed uWindDirX uWindDirY uTurbulence
      uGustFrequency uGustStrength worldX worldZ px py pz : ℝ) :
    ℝ × ℝ × ℝ :=
  (px +
      (Real.sin (uTime * uWindSpeed * 2 +
            (worldX * uWindDirX + worldZ * uWindDirY) * 0.3) +
          snoise (worldX * 0.1) (worldZ * 0.1) (uTime * uWindSpeed * 0.5) *
            uTurbulence +
          (Real.sin (uTime * uWindSpeed * uGustFrequency) * 0.5 + 0.5) ^
              (4 : ℝ) *
            uGustStrength) *
        uWindStrength * py * py * uWindDirX +
      snoise (worldX * 0.2) (worldZ * 0.2) (uTime * uWindSpeed) *
        uWindStrength * py * 0.3 * uWindDirY,
    py,
    pz +
      (Real.sin (uTime * uWindSpeed * 2 +
            (worldX * uWindDirX + worldZ * uWindDirY) * 0.3) +
          snoise (worldX * 0.1) (worldZ * 0.1) (uTime * uWindSpeed * 0.5) *
            uTurbulence +
          (Real.sin (uTime * uWindSpeed * uGustFrequency) * 0.5 + 0.5) ^
              (4 : ℝ) *
            uGustStrength) *
        uWindStrength * py * py * uWindDirY -
      snoise (worldX * 0.2) (worldZ * 0.2) (uTime * uWindSpeed) *
        uWindStrength * py * 0.3 * uWindDirX)

/-- `WindConfig` (grass.tsx lines 34-47) after merging with
`DEFAULT_WIND`. -/
structure WindConfig where
  strength : ℝ
  speed : ℝ
  direction : ℝ
  turbulence : ℝ
  gustFrequency : ℝ
  gustStrength : ℝ

/-- `DEFAULT_WIND` (grass.tsx lines 118-125). -/
def DEFAULT_WIND : WindConfig :=
  { strength := 0.3, speed := 1, direction := 0, turbulence := 0.3,
    gustFrequency := 0.5, gustStrength := 0.5 }

/-- The uniform block of the grass `ShaderMaterial`. -/
structure MaterialUniforms where
  uTime : ℝ
  uWindStrength : ℝ
  uWindSpeed : ℝ
  uWindDirectionX : ℝ
  uWindDirectionY : ℝ
  uTurbulence : ℝ
  uGustFrequency : ℝ
  uGustStrength : ℝ

/-- The `material` memo (grass.tsx lines 505-522), run when the component
mounts: the uniforms are created with `uTime: \x7b value: 0 \x7d` and the
wind parameters, with the direction vector
`(cos(direction), sin(direction))` of line 431. -/
def createMaterial (wc : WindConfig) : MaterialUniforms :=
  { uTime := 0, uWindStrength := wc.strength, uWindSpeed := wc.speed,
    uWindDirectionX := Real.cos wc.direction,
    uWindDirectionY := Real.sin wc.direction,
    uTurbulence := wc.turbulence, uGustFrequency := wc.gustFrequency,
    uGustStrength := wc.gustStrength }

/-- The `useFrame` callback (grass.tsx lines 548-552):
`material.uniforms.uTime.value = state.clock.elapsedTime`, where the
clock is the canvas-wide clock, external to the component. -/
def frameUpdate (m : MaterialUniforms) (clockElapsedTime : ℝ) :
    MaterialUniforms :=
  { m with uTime := clockElapsedTime }



/-!
## Helper lemmas
-/

theorem combineTotals_foldl (x z : ℝ) (ts : List HeightField)
    (a : ℝ × ℝ × ℝ) :
    ts.foldl
      (fun acc t =>
        (acc.1 + (t x z).1, acc.2.1 + (t x z).2.1,
          acc.2.2 + (t x z).2.2.2)) a =
      (a.1 + (ts.map fun t => (t x z).1).sum,
        a.2.1 + (ts.map fun t => (t x z).2.1).sum,
        a.2.2 + (ts.map fun t => (t x z).2.2.2).sum) := by
  induction ts generalizing a with
  | nil => cases a; simp
  | cons t ts ih => simp [ih, add_assoc]

theorem combineTotals_eq (ts : List HeightField) (x z : ℝ) :
    combineTotals ts x z =
      ((ts.map fun t => (t x z).1).sum, (ts.map fun t => (t x z).2.1).sum,
        (ts.map fun t => (t x z).2.2.2).sum) := by
  rw [combineTotals, combineTotals_foldl]
  norm_num

theorem normSq3_unit (a b : ℝ) :
    normSq3 (a / Real.sqrt (a ^ 2 + 1 + b ^ 2),
      1 / Real.sqrt (a ^ 2 + 1 + b ^ 2),
      b / Real.sqrt (a ^ 2 + 1 + b ^ 2)) = 1 := by
  have hs : (0 : ℝ) < a ^ 2 + 1 + b ^ 2 := by positivity
  have hne : Real.sqrt (a ^ 2 + 1 + b ^ 2) ≠ 0 := by positivity
  simp only [normSq3]
  field_simp

/-!
## Claim theorems
-/

/-- C1: for every hill configuration and every ground coordinate whose
hill-local anisotropically scaled radial distance satisfies
`dist >= radius + skirt`, and for every coordinate in the skirt band
`radius <= dist < radius + skirt`, `createHillTerrain` returns height `0`
and normal `(0, 1, 0)`. -/
theorem hill_flat_outside (c : HillConfig) (x z : ℝ)
    (h : c.radius + c.skirt ≤ hillDist c x z ∨
      (c.radius ≤ hillDist c x z ∧ hillDist c x z < c.radius + c.skirt)) :
    createHillTerrain c x z = (0, 0, 1, 0) := by
  unfold createHillTerrain
  rcases h with h | ⟨h1, h2⟩
  · rw [if_pos h]
  · rw [if_neg (not_le.mpr h2), if_pos h1]

/-- Witness for C1: the default hill (radius 10, skirt 0) evaluated at
`(20, 0)`, which lies at scaled distance 20 from the center. -/
theorem hill_flat_outside_witness :
    createHillTerrain DEFAULT_HILL 20 0 = (0, 0, 1, 0) := by
  apply hill_flat_outside
  left
  have hx : hillADX DEFAULT_HILL 20 0 = 20 := by
    simp [hillADX, DEFAULT_HILL]
  have hz : hillADZ DEFAULT_HILL 20 0 = 0 := by
    simp [hillADZ, DEFAULT_HILL]
  have hd : hillDist DEFAULT_HILL 20 0 = 20 := by
    rw [hillDist, hx, hz]
    rw [show (20 : ℝ) ^ 2 + 0 ^ 2 = 20 ^ 2 by norm_num]
    exact Real.sqrt_sq (by norm_num)
  rw [hd]
  norm_num [DEFAULT_HILL]

/-- C4: the height of `combineTerrains` at any point is the sum of the
child heights at that point (exact over the reals). -/
theorem combineTerrains_height_sum (ts : List HeightField) (x z : ℝ) :
    (combineTerrains ts x z).1 = (ts.map fun t => (t x z).1).sum := by
  simp [combineTerrains, combineTotals_eq]

/-- C6: for every height-field variant of the source (flat, hill,
composite) and every ground coordinate, the returned normal
`(nx, ny, nz)` is unit length. -/
theorem heightSample_normal_unit :
    (∀ x z : ℝ, normSq3 (createFlatTerrain x z).2 = 1) ∧
    (∀ (c : HillConfig) (x z : ℝ),
      normSq3 ((createHillTerrain c x z).2) = 1) ∧
    (∀ (ts : List HeightField) (x z : ℝ),
      normSq3 ((combineTerrains ts x z).2) = 1) := by
  refine ⟨fun x z => by norm_num [createFlatTerrain, normSq3],
    fun c x z => ?_, fun ts x z => ?_⟩
  · unfold createHillTerrain
    split_ifs
    · norm_num [normSq3]
    · norm_num [normSq3]
    · simpa [hillLen, neg_sq] using
        normSq3_unit (-hillDhdx c x z) (-hillDhdz c x z)
  · simpa [combineTerrains] using
      normSq3_unit (combineTotals ts x z).2.1 (combineTotals ts x z).2.2

/-- C8: the wind displacement of the vertex shader vanishes at the blade
root: at `position.y = 0` the displaced position equals the input
position for every wind configuration, time, world position and noise
function. -/
theorem wind_root_pinned (snoise : ℝ → ℝ → ℝ → ℝ)
    (uTime uWindStrength uWindSpeed uWindDirX uWindDirY uTurbulence
      uGustFrequency uGustStrength worldX worldZ px pz : ℝ) :
    windDisplacedPos snoise uTime uWindStrength uWindSpeed uWindDirX
        uWindDirY uTurbulence uGustFrequency uGustStrength worldX worldZ
        px 0 pz = (px, 0, pz) := by
  simp [windDisplacedPos]

/-- C9 (amended): the `uTime` uniform is created with value `0` whenever
the component (re)mounts, and the per-frame update overwrites it with the
canvas clock's elapsed time, whatever that is — the clock is external to
the component and is not reset by a remount. -/
theorem uTime_reset_on_mount :
    (∀ wc : WindConfig, (createMaterial wc).uTime = 0) ∧
    (∀ (wc : WindConfig) (c : ℝ),
      (frameUpdate (createMaterial wc) c).uTime = c) :=
  ⟨fun _ => rfl, fun _ _ => rfl⟩

/-- C9 counterexample: a remount followed by a first frame at canvas
clock time `5` observes `uTime = 5`, not `0` — the first per-frame
advance does not observe time starting from `0`. -/
theorem uTime_first_frame_counterexample :
    (frameUpdate (createMaterial DEFAULT_WIND) 5).uTime = 5 ∧
    (frameUpdate (createMaterial DEFAULT_WIND) 5).uTime ≠ 0 := by
  refine ⟨rfl, ?_⟩
  norm_num [frameUpdate, createMaterial]

/-- C10: `combineTerrains` of a single child preserves the child's height
exactly, recomputes the normal as `normalize(nx, 1, nz)` from the child's
x and z normal components with the y component replaced by `1`, is
therefore not in general the identity even on fields with unit normals,
yet is the identity on the flat field pointwise. -/
theorem combineTerrains_single (f : HeightField) (x z : ℝ) :
    ((combineTerrains [f] x z).1 = (f x z).1) ∧
    (combineTerrains [f] x z =
      ((f x z).1,
        (f x z).2.1 /
          Real.sqrt ((f x z).2.1 ^ 2 + 1 + (f x z).2.2.2 ^ 2),
        1 / Real.sqrt ((f x z).2.1 ^ 2 + 1 + (f x z).2.2.2 ^ 2),
        (f x z).2.2.2 /
          Real.sqrt ((f x z).2.1 ^ 2 + 1 + (f x z).2.2.2 ^ 2))) ∧
    (∃ g : HeightField, (∀ a b : ℝ, normSq3 (g a b).2 = 1) ∧
      combineTerrains [g] ≠ g) ∧
    (combineTerrains [createFlatTerrain] x z = createFlatTerrain x z) := by
  have htot : combineTotals [f] x z =
      ((f x z).1, (f x z).2.1, (f x z).2.2.2) := by
    simp [combineTotals]
  refine ⟨?_, ?_, ?_, ?_⟩
  · simp [combineTerrains, htot]
  · simp [combineTerrains, htot]
  · refine ⟨gUnitX, fun a b => by norm_num [normSq3, gUnitX], ?_⟩
    intro heq
    have h2 := congrFun (congrFun heq 0) 0
    have hg : combineTotals [gUnitX] (0 : ℝ) (0 : ℝ) = (0, 1, 0) := by
      simp [combineTotals, gUnitX]
    have hL : combineTerrains [gUnitX] (0 : ℝ) (0 : ℝ) =
        (0, 1 / Real.sqrt 2, 1 / Real.sqrt 2, 0) := by
      simp only [combineTerrains, hg]
      norm_num
    rw [hL] at h2
    have h3 := congrArg (fun p : HeightSample => p.2.2.1) h2
    have hpos : (0 : ℝ) < 1 / Real.sqrt 2 := by positivity
    exact absurd h3 (ne_of_gt hpos)
  · have hflat : combineTotals [createFlatTerrain] x z = (0, 0, 0) := by
      simp [combineTotals, createFlatTerrain]
    simp [combineTerrains, hflat, createFlatTerrain]

theorem threeLengthSq_normalize (n : ℝ × ℝ × ℝ) (h0 : threeLength n ≠ 0) :
    threeLengthSq (threeNormalize n) = 1 := by
  have h1 : 0 ≤ threeLengthSq n := by
    simp only [threeLengthSq]; positivity
  have hL2 : threeLength n ^ 2 = threeLengthSq n := Real.sq_sqrt h1
  simp only [threeLengthSq] at hL2
  simp only [threeNormalize, if_neg h0, threeLengthSq]
  field_simp
  linarith [hL2]

/-- C2: the instance transform generator produces exactly `bladeCount`
transforms (an empty buffer when the count is `0`); every transform's
ground position lies in the centered rectangle of the configured area and
every scale-Y lies in the configured height range. -/
theorem instanceMatrices_spec (rand : ℕ → ℝ) (bladeCount : ℕ)
    (sizeX sizeZ hMin hMax : ℝ) (hf : HeightField)
    (hrand : ∀ i, 0 ≤ rand i ∧ rand i < 1)
    (hsx : 0 < sizeX) (hsz : 0 < sizeZ) (hmm : hMin ≤ hMax) :
    (instanceMatrices rand bladeCount sizeX sizeZ hMin hMax hf).length =
        bladeCount ∧
    (bladeCount = 0 →
      instanceMatrices rand bladeCount sizeX sizeZ hMin hMax hf = []) ∧
    ∀ t ∈ instanceMatrices rand bladeCount sizeX sizeZ hMin hMax hf,
      -(sizeX / 2) ≤ t.pos.1 ∧ t.pos.1 ≤ sizeX / 2 ∧
      -(sizeZ / 2) ≤ t.pos.2.2 ∧ t.pos.2.2 ≤ sizeZ / 2 ∧
      hMin ≤ t.scale.2.1 ∧ t.scale.2.1 ≤ hMax := by
  refine ⟨by simp [instanceMatrices],
    fun h0 => by simp [instanceMatrices, h0], ?_⟩
  intro t ht
  simp only [instanceMatrices, List.mem_map, List.mem_range] at ht
  obtain ⟨i, hi, rfl⟩ := ht
  obtain ⟨h1a, h1b⟩ := hrand (4 * i)
  obtain ⟨h2a, h2b⟩ := hrand (4 * i + 1)
  obtain ⟨h3a, h3b⟩ := hrand (4 * i + 2)
  simp only [makeBlade]
  refine ⟨?_, ?_, ?_, ?_, ?_, ?_⟩
  · nlinarith [mul_nonneg h1a hsx.le]
  · nlinarith [mul_le_mul_of_nonneg_right h1b.le hsx.le]
  · nlinarith [mul_nonneg h2a hsz.le]
  · nlinarith [mul_le_mul_of_nonneg_right h2b.le hsz.le]
  · nlinarith [mul_nonneg h3a (sub_nonneg.mpr hmm)]
  · nlinarith [mul_le_of_le_one_left (sub_nonneg.mpr hmm) h3b.le]

/-- Witness for C2: two blades on a 10 by 10 flat field with the height
range [0.3, 0.8] and the constant random stream 1/2. -/
theorem instanceMatrices_spec_witness :
    (instanceMatrices (fun _ => 1 / 2) 2 10 10 0.3 0.8
        createFlatTerrain).length = 2 ∧
    ((2 : ℕ) = 0 →
      instanceMatrices (fun _ => 1 / 2) 2 10 10 0.3 0.8
        createFlatTerrain = []) ∧
    ∀ t ∈ instanceMatrices (fun _ => 1 / 2) 2 10 10 0.3 0.8
        createFlatTerrain,
      -((10 : ℝ) / 2) ≤ t.pos.1 ∧ t.pos.1 ≤ (10 : ℝ) / 2 ∧
      -((10 : ℝ) / 2) ≤ t.pos.2.2 ∧ t.pos.2.2 ≤ (10 : ℝ) / 2 ∧
      (0.3 : ℝ) ≤ t.scale.2.1 ∧ t.scale.2.1 ≤ (0.8 : ℝ) :=
  instanceMatrices_spec (fun _ => 1 / 2) 2 10 10 0.3 0.8 createFlatTerrain
    (fun _ => by norm_num) (by norm_num) (by norm_num) (by norm_num)

/-- C7: a degenerate (zero-length) sampled normal is replaced by the up
axis `(0, 1, 0)` before the alignment orientation is computed, the vector
handed to the alignment step is always unit length, and instance
generation is total: for arbitrary numeric input it returns a buffer of
exactly the requested length, with no error path. -/
theorem degenerate_normal_substitution :
    (∀ n : ℝ × ℝ × ℝ, threeLengthSq n = 0 → bladeNormal n = (0, 1, 0)) ∧
    (∀ n : ℝ × ℝ × ℝ, threeLength (bladeNormal n) = 1) ∧
    (∀ (rand : ℕ → ℝ) (bladeCount : ℕ) (sizeX sizeZ hMin hMax : ℝ)
      (hf : HeightField),
      (instanceMatrices rand bladeCount sizeX sizeZ hMin hMax hf).length =
        bladeCount) := by
  refine ⟨?_, ?_, ?_⟩
  · intro n h
    have hl : threeLength n = 0 := by rw [threeLength, h, Real.sqrt_zero]
    have hnorm : threeNormalize n = n := by
      simp [threeNormalize, hl]
    unfold bladeNormal
    rw [hnorm, h, if_pos (by norm_num : (0 : ℝ) < 0.001)]
  · intro n
    by_cases h0 : threeLength n = 0
    · have hge : 0 ≤ threeLengthSq n := by
        simp only [threeLengthSq]; positivity
      have hle : threeLengthSq n ≤ 0 := Real.sqrt_eq_zero'.mp h0
      have hsq : threeLengthSq n = 0 := le_antisymm hle hge
      have hnorm : threeNormalize n = n := by
        simp [threeNormalize, h0]
      have hup : bladeNormal n = (0, 1, 0) := by
        unfold bladeNormal
        rw [hnorm, hsq, if_pos (by norm_num : (0 : ℝ) < 0.001)]
      rw [hup]
      norm_num [threeLength, threeLengthSq, Real.sqrt_one]
    · have h1 := threeLengthSq_normalize n h0
      have hne : ¬ threeLengthSq (threeNormalize n) < 0.001 := by
        rw [h1]; norm_num
      unfold bladeNormal
      rw [if_neg hne, threeLength, h1, Real.sqrt_one]
  · intro rand bladeCount sizeX sizeZ hMin hMax hf
    simp [instanceMatrices]

/-- Witness for C7: the zero normal is replaced by the up axis, and a
non-degenerate normal still reaches the alignment step at unit length. -/
theorem degenerate_normal_substitution_witness :
    bladeNormal (0, 0, 0) = (0, 1, 0) ∧
    threeLength (bladeNormal (2, 0, 0)) = 1 :=
  ⟨degenerate_normal_substitution.1 (0, 0, 0) (by norm_num [threeLengthSq]),
    degenerate_normal_substitution.2.1 (2, 0, 0)⟩

theorem ridgeFactorAt_one (c : HillConfig) (hridge : c.ridge = 0)
    (a b : ℝ) : ridgeFactorAt c a b = 1 := by
  rw [ridgeFactorAt, if_neg]
  rw [hridge]
  exact lt_irrefl 0

theorem plateauRemap_zero (c : HillConfig) : plateauRemap c 0 = 0 := by
  unfold plateauRemap
  split_ifs with h1 h2
  · rfl
  · exact absurd ⟨h2, h2⟩ h1
  · rfl

theorem plateauRemap_le_one (c : HillConfig) (hpl1 : c.plateau < 1)
    (t : ℝ) (ht : t ≤ 1) : plateauRemap c t ≤ 1 := by
  unfold plateauRemap
  split_ifs with h1 h2
  · linarith
  · rw [div_le_one (by linarith)]
    linarith
  · exact ht

theorem plateauRemap_mono (c : HillConfig) (hpl1 : c.plateau < 1)
    (t1 t2 : ℝ) (h : t1 ≤ t2) : plateauRemap c t1 ≤ plateauRemap c t2 := by
  unfold plateauRemap
  by_cases hB : 0 < c.plateau
  · by_cases h1 : t1 < c.plateau
    · rw [if_pos ⟨hB, h1⟩]
      by_cases h2 : t2 < c.plateau
      · rw [if_pos ⟨hB, h2⟩]
      · rw [if_neg (fun hc => h2 hc.2), if_pos hB]
        have := not_lt.mp h2
        apply div_nonneg <;> linarith
    · rw [if_neg (fun hc => h1 hc.2), if_pos hB]
      have h2 : ¬ t2 < c.plateau := fun hc => h1 (lt_of_le_of_lt h hc)
      rw [if_neg (fun hc => h2 hc.2), if_pos hB]
      rw [div_le_div_iff₀ (by linarith) (by linarith)]
      exact mul_le_mul_of_nonneg_right (by linarith) (by linarith)
  · rw [if_neg (fun hc => hB hc.1), if_neg hB,
      if_neg (fun hc : 0 < c.plateau ∧ t2 < c.plateau => hB hc.1), if_neg hB]
    exact h

theorem hillHeight_eq_D (c : HillConfig) (hridge : c.ridge = 0) (x z : ℝ) :
    (createHillTerrain c x z).1 = hillHeightD c (hillDist c x z) := by
  simp only [createHillTerrain, hillHeightD]
  split_ifs
  · rfl
  · rfl
  · simp only [hillInteriorY, ridgeFactorAt_one c hridge, mul_one]

theorem hillHeightD_nonneg (c : HillConfig) (hrad : 0 < c.radius)
    (hh : 0 ≤ c.height) (hpl1 : c.plateau < 1) (d : ℝ) :
    0 ≤ hillHeightD c d := by
  unfold hillHeightD
  split_ifs with h1 h2
  · exact le_rfl
  · exact le_rfl
  · have hd1 : d / c.radius ≤ 1 :=
      (div_le_one hrad).mpr (le_of_lt (not_le.mp h2))
    have hple := plateauRemap_le_one c hpl1 _ hd1
    exact mul_nonneg hh (Real.rpow_nonneg (by linarith) _)

theorem hillHeightD_zero (c : HillConfig) (hrad : 0 < c.radius)
    (hsk : 0 ≤ c.skirt) : hillHeightD c 0 = c.height := by
  unfold hillHeightD
  rw [if_neg (not_le.mpr (by linarith)), if_neg (not_le.mpr hrad),
    zero_div, plateauRemap_zero c, sub_zero, Real.one_rpow, mul_one]

theorem hillHeightD_antitone (c : HillConfig) (hrad : 0 < c.radius)
    (hsk : 0 ≤ c.skirt) (hh : 0 ≤ c.height) (hpl1 : c.plateau < 1)
    (hro : 1 ≤ c.roundness) (d1 d2 : ℝ) (h : d1 ≤ d2) :
    hillHeightD c d2 ≤ hillHeightD c d1 := by
  by_cases hd2 : c.radius ≤ d2
  · have e2 : hillHeightD c d2 = 0 := by
      unfold hillHeightD
      split_ifs <;> rfl
    rw [e2]
    exact hillHeightD_nonneg c hrad hh hpl1 d1
  · have hd2' : d2 < c.radius := not_le.mp hd2
    have hd1' : d1 < c.radius := lt_of_le_of_lt h hd2'
    unfold hillHeightD
    rw [if_neg (not_le.mpr (by linarith : d2 < c.radius + c.skirt)),
      if_neg (not_le.mpr hd2'),
      if_neg (not_le.mpr (by linarith : d1 < c.radius + c.skirt)),
      if_neg (not_le.mpr hd1')]
    apply mul_le_mul_of_nonneg_left _ hh
    apply Real.rpow_le_rpow
    · have hp2 : plateauRemap c (d2 / c.radius) ≤ 1 :=
        plateauRemap_le_one c hpl1 _ ((div_le_one hrad).mpr hd2'.le)
      linarith
    · have hdd : d1 / c.radius ≤ d2 / c.radius :=
        (div_le_div_iff_of_pos_right hrad).mpr h
      have := plateauRemap_mono c hpl1 (d1 / c.radius) (d2 / c.radius) hdd
      linarith
    · linarith

theorem hillADX_center (c : HillConfig) :
    hillADX c c.centerX c.centerZ = 0 := by
  simp [hillADX]

theorem hillADZ_center (c : HillConfig) :
    hillADZ c c.centerX c.centerZ = 0 := by
  simp [hillADZ]

theorem hillDist_center (c : HillConfig) :
    hillDist c c.centerX c.centerZ = 0 := by
  rw [hillDist, hillADX_center, hillADZ_center]
  rw [show (0 : ℝ) ^ 2 + 0 ^ 2 = 0 by norm_num]
  exact Real.sqrt_zero

theorem hillC3_ridge : hillC3.ridge = 0 := by
  norm_num [hillC3, DEFAULT_HILL]

theorem hillC3_adx_px : hillADX hillC3 0.01 0 = 0.01 := by
  norm_num [hillADX, hillC3, DEFAULT_HILL]

theorem hillC3_adx_mx : hillADX hillC3 (-0.01) 0 = -0.01 := by
  norm_num [hillADX, hillC3, DEFAULT_HILL]

theorem hillC3_adz_px : hillADZ hillC3 0.01 0 = 0 := by
  norm_num [hillADZ, hillC3, DEFAULT_HILL]

theorem hillC3_adz_mx : hillADZ hillC3 (-0.01) 0 = 0 := by
  norm_num [hillADZ, hillC3, DEFAULT_HILL]

theorem hillC3_adx_pz : hillADX hillC3 0 0.01 = 0 := by
  norm_num [hillADX, hillC3, DEFAULT_HILL]

theorem hillC3_adx_mz : hillADX hillC3 0 (-0.01) = 0 := by
  norm_num [hillADX, hillC3, DEFAULT_HILL]

theorem hillC3_adz_pz : hillADZ hillC3 0 0.01 = 0.01 := by
  norm_num [hillADZ, hillC3, DEFAULT_HILL]

theorem hillC3_adz_mz : hillADZ hillC3 0 (-0.01) = -0.01 := by
  norm_num [hillADZ, hillC3, DEFAULT_HILL]

theorem hillC3_g_x : hillGetHeight hillC3 0.01 0 =
    hillGetHeight hillC3 (-0.01) 0 := by
  unfold hillGetHeight
  rw [hillC3_adx_px, hillC3_adx_mx, hillC3_adz_px, hillC3_adz_mx,
    ridgeFactorAt_one hillC3 hillC3_ridge 0.01 0,
    ridgeFactorAt_one hillC3 hillC3_ridge (-0.01) 0]
  norm_num

theorem hillC3_g_z : hillGetHeight hillC3 0 0.01 =
    hillGetHeight hillC3 0 (-0.01) := by
  unfold hillGetHeight
  rw [hillC3_adx_pz, hillC3_adx_mz, hillC3_adz_pz, hillC3_adz_mz,
    ridgeFactorAt_one hillC3 hillC3_ridge 0 0.01,
    ridgeFactorAt_one hillC3 hillC3_ridge 0 (-0.01)]
  norm_num

theorem hillC3_dhdx : hillDhdx hillC3 0 0 = 0 := by
  rw [hillDhdx, show (0 : ℝ) + 0.01 = 0.01 by norm_num,
    show (0 : ℝ) - 0.01 = -0.01 by norm_num, hillC3_g_x, sub_self, zero_div]

theorem hillC3_dhdz : hillDhdz hillC3 0 0 = 0 := by
  rw [hillDhdz, show (0 : ℝ) + 0.01 = 0.01 by norm_num,
    show (0 : ℝ) - 0.01 = -0.01 by norm_num, hillC3_g_z, sub_self, zero_div]

theorem hillC3_len : hillLen hillC3 0 0 = 1 := by
  rw [hillLen, hillC3_dhdx, hillC3_dhdz]
  rw [show (0 : ℝ) ^ 2 + 1 + 0 ^ 2 = 1 by norm_num]
  exact Real.sqrt_one

theorem hillC3_dist : hillDist hillC3 0 0 = 0 := by
  have h1 : hillADX hillC3 0 0 = 0 := by
    norm_num [hillADX, hillC3, DEFAULT_HILL]
  have h2 : hillADZ hillC3 0 0 = 0 := by
    norm_num [hillADZ, hillC3, DEFAULT_HILL]
  rw [hillDist, h1, h2, show (0 : ℝ) ^ 2 + 0 ^ 2 = 0 by norm_num]
  exact Real.sqrt_zero

theorem hillC3_interior : hillInteriorY hillC3 0 0 = 3 := by
  rw [hillInteriorY, hillC3_dist, zero_div, plateauRemap_zero,
    ridgeFactorAt_one hillC3 hillC3_ridge, sub_zero, Real.one_rpow,
    one_mul]
  norm_num [hillC3, DEFAULT_HILL]

theorem hillC3_at_center : createHillTerrain hillC3 0 0 = (3, 0, 1, 0) := by
  simp only [createHillTerrain]
  rw [hillC3_dist,
    if_neg (not_le.mpr (by norm_num [hillC3, DEFAULT_HILL] :
      (0 : ℝ) < hillC3.radius + hillC3.skirt)),
    if_neg (not_le.mpr (by norm_num [hillC3, DEFAULT_HILL] :
      (0 : ℝ) < hillC3.radius))]
  rw [hillC3_interior, hillC3_dhdx, hillC3_dhdz, hillC3_len]
  norm_num

/-- C3: for a well-formed hill (positive radius, nonneg skirt and height,
plateau in [0,1), roundness at least 1, ridge 0) the height at the hill
center equals the peak height, the height is monotonically non-increasing
in the hill-local radial distance, and the spec scenario
`Hill(radius=5, height=3, roundness=2)` evaluates at its center to height
3 with normal (0, 1, 0). -/
theorem hill_center_peak_and_monotone (c : HillConfig)
    (hrad : 0 < c.radius) (hsk : 0 ≤ c.skirt) (hh : 0 ≤ c.height)
    (_hpl : 0 ≤ c.plateau) (hpl1 : c.plateau < 1)
    (hro : 1 ≤ c.roundness) (hridge : c.ridge = 0) :
    (createHillTerrain c c.centerX c.centerZ).1 = c.height ∧
    (∀ x1 z1 x2 z2 : ℝ, hillDist c x1 z1 ≤ hillDist c x2 z2 →
      (createHillTerrain c x2 z2).1 ≤ (createHillTerrain c x1 z1).1) ∧
    createHillTerrain hillC3 0 0 = (3, 0, 1, 0) := by
  refine ⟨?_, ?_, hillC3_at_center⟩
  · rw [hillHeight_eq_D c hridge, hillDist_center,
      hillHeightD_zero c hrad hsk]
  · intro x1 z1 x2 z2 hd
    rw [hillHeight_eq_D c hridge, hillHeight_eq_D c hridge]
    exact hillHeightD_antitone c hrad hsk hh hpl1 hro _ _ hd

/-- Witness for C3: the scenario hill `Hill(radius=5, height=3,
roundness=2)` satisfies every hypothesis. -/
theorem hill_center_peak_and_monotone_witness :
    (createHillTerrain hillC3 hillC3.centerX hillC3.centerZ).1 =
        hillC3.height ∧
    (∀ x1 z1 x2 z2 : ℝ, hillDist hillC3 x1 z1 ≤ hillDist hillC3 x2 z2 →
      (createHillTerrain hillC3 x2 z2).1 ≤
        (createHillTerrain hillC3 x1 z1).1) ∧
    createHillTerrain hillC3 0 0 = (3, 0, 1, 0) :=
  hill_center_peak_and_monotone hillC3
    (by norm_num [hillC3, DEFAULT_HILL]) (by norm_num [hillC3, DEFAULT_HILL])
    (by norm_num [hillC3, DEFAULT_HILL]) (by norm_num [hillC3, DEFAULT_HILL])
    (by norm_num [hillC3, DEFAULT_HILL]) (by norm_num [hillC3, DEFAULT_HILL])
    hillC3_ridge

/-- C5: the terrain mesh builder produces a grid whose every vertex has
its height coordinate equal to the height field evaluated at that
vertex's ground coordinates, and the whole geometry — the recomputed
per-vertex normals included — depends only on the height component of the
field: two fields agreeing on heights yield identical meshes and
normals, so normals are recomputed from the final mesh geometry and never
taken from the height-field normal. -/
theorem terrainGeometry_spec (w h : ℝ) (segs : ℕ) (f g : HeightField)
    (hfg : ∀ x z : ℝ, (f x z).1 = (g x z).1) :
    (∀ p ∈ (terrainGeometry w h segs f).1, p.2.2 = (f p.1 p.2.1).1) ∧
    terrainGeometry w h segs f = terrainGeometry w h segs g := by
  have hfun : (fun v : ℝ × ℝ × ℝ => ((v.1, v.2.1, (f v.1 v.2.1).1) :
        ℝ × ℝ × ℝ)) =
      fun v : ℝ × ℝ × ℝ => (v.1, v.2.1, (g v.1 v.2.1).1) :=
    funext fun v => by rw [hfg]
  constructor
  · intro p hp
    simp only [terrainGeometry, List.mem_map] at hp
    obtain ⟨v, hv, rfl⟩ := hp
    rfl
  · unfold terrainGeometry
    rw [hfun]

/-- Witness for C5: the flat field and a field with the same (zero)
heights but a different normal produce the same mesh. -/
theorem terrainGeometry_spec_witness :
    (∀ p ∈ (terrainGeometry 1 1 1 createFlatTerrain).1,
      p.2.2 = (createFlatTerrain p.1 p.2.1).1) ∧
    terrainGeometry 1 1 1 createFlatTerrain =
      terrainGeometry 1 1 1 gUnitX :=
  terrainGeometry_spec 1 1 1 createFlatTerrain gUnitX
    (fun x z => by norm_num [createFlatTerrain, gUnitX])
